import Mathlib

/-!
Shallow embedding of `packages/dns-test/src/implementation.rs`:
the `Role` / `Config` / `Implementation` / `Repository` capability model
and the dispatch functions `format_config`, `conf_file_path`, `cmd_args`,
`pidfile`, together with the `Display` and `Default` instances and the
`Repository` constructor.  Rust panics (`assert!`, `unimplemented!`) are
embedded as `Except.error` carrying the panic message.
-/

namespace DnsTest

/-- The zone origin type (`crate::FQDN`); only its `as_str` view is used here. -/
structure FQDN where
  as_str : String
deriving DecidableEq

/-- `Repository<'a>`: a validated reference to a source tree, wrapping a string
(the `Cow<'a, str>` field `inner`). -/
structure Repository where
  inner : String
deriving DecidableEq

/-- `Repository::as_str`. -/
def Repository.as_str (r : Repository) : String :=
  r.inner

/-- `enum Role { NameServer, Resolver }`. -/
inductive Role where
  | NameServer
  | Resolver
deriving DecidableEq

/-- `Role::is_resolver`. -/
def Role.is_resolver : Role → Bool
  | .Resolver => true
  | .NameServer => false

/-- `enum Config<'a>`: parameters needed to render a configuration. -/
inductive Config where
  | NameServer (origin : FQDN)
  | Resolver (use_dnssec : Bool) (netmask : String)
deriving DecidableEq

/-- `Config::role`. -/
def Config.role : Config → Role
  | .NameServer _ => .NameServer
  | .Resolver _ _ => .Resolver

/-- `enum Implementation { Bind, Hickory(Repository), Unbound }`. -/
inductive Implementation where
  | Bind
  | Hickory (repo : Repository)
  | Unbound
deriving DecidableEq

/-- `Implementation::is_bind`. -/
def Implementation.is_bind : Implementation → Bool
  | .Bind => true
  | _ => false

/-- The five template sources consumed via `include_str!`, keyed by their
file names under `src/templates/`. -/
inductive Template where
  | namedResolver
  | hickoryResolver
  | unboundResolver
  | namedNameServer
  | nsdNameServer
deriving DecidableEq

/-- The file name each `Template` constructor stands for. -/
def Template.sourceName : Template → String
  | .namedResolver => "templates/named.resolver.conf.jinja"
  | .hickoryResolver => "templates/hickory.resolver.toml.jinja"
  | .unboundResolver => "templates/unbound.conf.jinja"
  | .namedNameServer => "templates/named.name-server.conf.jinja"
  | .nsdNameServer => "templates/nsd.conf.jinja"

/-- One rendered named parameter, as a `key=value` fragment. -/
def renderParam (p : String × String) : String :=
  "[" ++ p.1 ++ "=" ++ p.2 ++ "]"

/-- Modelled from the spec: the template files under `src/templates/` and the
`minijinja` rendering engine are external to the shown source.  Per §6 the
collaborator takes a template source and named parameters and returns the
rendered text with the parameter values substituted in; this model emits the
template name followed by every passed parameter as a `key=value` fragment. -/
def renderImpl (t : Template) (params : List (String × String)) : String :=
  t.sourceName ++ ":" ++ String.join (params.map renderParam)

/-- `Implementation::format_config`, parametric in the rendering collaborator
`render`.  Each branch passes exactly the named parameters the source passes
(`use_dnssec` and `netmask` for Bind/Unbound resolvers, only `use_dnssec` for
the Hickory resolver, `fqdn` for name servers); the `unimplemented!()` branch
for Hickory-as-name-server becomes an error. -/
def Implementation.format_config (render : Template → List (String × String) → String)
    (impl : Implementation) (config : Config) : Except String String :=
  match config with
  | .Resolver use_dnssec netmask =>
    match impl with
    | .Bind =>
        .ok (render .namedResolver
          [("use_dnssec", toString use_dnssec), ("netmask", netmask)])
    | .Hickory _ =>
        .ok (render .hickoryResolver
          [("use_dnssec", toString use_dnssec)])
    | .Unbound =>
        .ok (render .unboundResolver
          [("use_dnssec", toString use_dnssec), ("netmask", netmask)])
  | .NameServer origin =>
    match impl with
    | .Bind =>
        .ok (render .namedNameServer [("fqdn", origin.as_str)])
    | .Unbound =>
        .ok (render .nsdNameServer [("fqdn", origin.as_str)])
    | .Hickory _ =>
        .error "not implemented"

/-- `Implementation::conf_file_path`: a total lookup. -/
def Implementation.conf_file_path : Implementation → Role → String
  | .Bind, _ => "/etc/bind/named.conf"
  | .Hickory _, _ => "/etc/named.toml"
  | .Unbound, .NameServer => "/etc/nsd/nsd.conf"
  | .Unbound, .Resolver => "/etc/unbound/unbound.conf"

/-- `Implementation::cmd_args`; the `assert!(role.is_resolver(), ..)` for
Hickory becomes an error carrying the assertion message. -/
def Implementation.cmd_args : Implementation → Role → Except String (List String)
  | .Bind, _ => .ok ["named", "-g", "-d5"]
  | .Hickory _, role =>
      if role.is_resolver then
        .ok ["hickory-dns", "-d"]
      else
        .error "hickory acting in `NameServer` role is currently not supported"
  | .Unbound, .NameServer => .ok ["nsd", "-d"]
  | .Unbound, .Resolver => .ok ["unbound", "-d"]

/-- `Implementation::pidfile`; the `unimplemented!()` branch for Hickory
becomes an error. -/
def Implementation.pidfile : Implementation → Role → Except String String
  | .Bind, _ => .ok "/tmp/named.pid"
  | .Hickory _, _ => .error "not implemented"
  | .Unbound, .NameServer => .ok "/tmp/nsd.pid"
  | .Unbound, .Resolver => .ok "/tmp/unbound.pid"

/-- `impl fmt::Display for Implementation`. -/
def Implementation.display : Implementation → String
  | .Bind => "bind"
  | .Hickory _ => "hickory"
  | .Unbound => "unbound"

/-- `impl Default for Implementation`. -/
def Implementation.default : Implementation :=
  .Unbound

/-- `fn Repository(input)`: the constructor that validates its input.  The
filesystem-existence check (`Path::new(..).exists()`) and URL parse
(`Url::parse(..).is_ok()`) are external collaborators, taken as the boolean
parameters `pathExists` and `urlParseOk`; the `assert!` failure becomes an
error carrying the panic message `"{input} is not a valid repository"`. -/
def mkRepository (pathExists urlParseOk : String → Bool) (input : String) :
    Except String Repository :=
  if pathExists input || urlParseOk input then
    .ok ⟨input⟩
  else
    .error (input ++ " is not a valid repository")

/-- Executable prefix test on character lists. -/
def isPrefixChars : List Char → List Char → Bool
  | [], _ => true
  | _ :: _, [] => false
  | a :: as, b :: bs => a == b && isPrefixChars as bs

/-- Executable infix test on character lists. -/
def isInfixChars (pat : List Char) : List Char → Bool
  | [] => isPrefixChars pat []
  | c :: ls => isPrefixChars pat (c :: ls) || isInfixChars pat ls

/-- `strContains s pat` holds when `pat` occurs as a substring of `s`. -/
def strContains (s pat : String) : Bool :=
  isInfixChars pat.data s.data

theorem isPrefixChars_append (m y : List Char) : isPrefixChars m (m ++ y) = true := by
  induction m with
  | nil => rfl
  | cons a as ih => simp [isPrefixChars, ih]

theorem isInfixChars_of_prefixChars (m l : List Char) (h : isPrefixChars m l = true) :
    isInfixChars m l = true := by
  cases l with
  | nil => exact h
  | cons c ls => simp [isInfixChars, h]

theorem isInfixChars_append (x m y : List Char) :
    isInfixChars m (x ++ m ++ y) = true := by
  induction x with
  | nil => exact isInfixChars_of_prefixChars m (m ++ y) (isPrefixChars_append m y)
  | cons a as ih =>
    rw [List.append_assoc] at ih
    simp [isInfixChars, ih]

theorem string_data_append (s t : String) : (s ++ t).data = s.data ++ t.data :=
  rfl

theorem strContains_append_mid (x m y : String) :
    strContains (x ++ m ++ y) m = true := by
  unfold strContains
  rw [string_data_append, string_data_append]
  exact isInfixChars_append x.data m.data y.data

theorem isInfixChars_append_of (m l1 l2 : List Char) (h : isInfixChars m l2 = true) :
    isInfixChars m (l1 ++ l2) = true := by
  induction l1 with
  | nil => exact h
  | cons a as ih => simp [isInfixChars, ih]

theorem string_data_empty : ("" : String).data = [] :=
  rfl

theorem strContains_append_left (m y : String) :
    strContains (m ++ y) m = true := by
  unfold strContains
  rw [string_data_append]
  exact isInfixChars_of_prefixChars m.data (m.data ++ y.data)
    (isPrefixChars_append m.data y.data)

end DnsTest

namespace DnsTest

theorem isInfixChars_cons_of (m : List Char) (a : Char) (l : List Char)
    (h : isInfixChars m l = true) : isInfixChars m (a :: l) = true := by
  simp [isInfixChars, h]

theorem bindResolver_contains_netmask (d : Bool) (m : String) :
    strContains (renderImpl .namedResolver
      [("use_dnssec", toString d), ("netmask", m)]) m = true := by
  unfold strContains renderImpl renderParam Template.sourceName String.join
  simp [string_data_append, string_data_empty, List.append_assoc]
  repeat
    first
    | exact isInfixChars_of_prefixChars _ _ (isPrefixChars_append _ _)
    | apply isInfixChars_cons_of
    | apply isInfixChars_append_of

theorem bindResolver_contains_flag (d : Bool) (m : String) :
    strContains (renderImpl .namedResolver
      [("use_dnssec", toString d), ("netmask", m)]) (toString d) = true := by
  unfold strContains renderImpl renderParam Template.sourceName String.join
  simp [string_data_append, string_data_empty, List.append_assoc]
  repeat
    first
    | exact isInfixChars_of_prefixChars _ _ (isPrefixChars_append _ _)
    | apply isInfixChars_cons_of
    | apply isInfixChars_append_of

theorem unboundResolver_contains_netmask (d : Bool) (m : String) :
    strContains (renderImpl .unboundResolver
      [("use_dnssec", toString d), ("netmask", m)]) m = true := by
  unfold strContains renderImpl renderParam Template.sourceName String.join
  simp [string_data_append, string_data_empty, List.append_assoc]
  repeat
    first
    | exact isInfixChars_of_prefixChars _ _ (isPrefixChars_append _ _)
    | apply isInfixChars_cons_of
    | apply isInfixChars_append_of

theorem unboundResolver_contains_flag (d : Bool) (m : String) :
    strContains (renderImpl .unboundResolver
      [("use_dnssec", toString d), ("netmask", m)]) (toString d) = true := by
  unfold strContains renderImpl renderParam Template.sourceName String.join
  simp [string_data_append, string_data_empty, List.append_assoc]
  repeat
    first
    | exact isInfixChars_of_prefixChars _ _ (isPrefixChars_append _ _)
    | apply isInfixChars_cons_of
    | apply isInfixChars_append_of

theorem hickoryResolver_contains_flag (d : Bool) :
    strContains (renderImpl .hickoryResolver
      [("use_dnssec", toString d)]) (toString d) = true := by
  unfold strContains renderImpl renderParam Template.sourceName String.join
  simp [string_data_append, string_data_empty, List.append_assoc]
  repeat
    first
    | exact isInfixChars_of_prefixChars _ _ (isPrefixChars_append _ _)
    | apply isInfixChars_cons_of
    | apply isInfixChars_append_of

theorem bindNameServer_contains_origin (o : String) :
    strContains (renderImpl .namedNameServer [("fqdn", o)]) o = true := by
  unfold strContains renderImpl renderParam Template.sourceName String.join
  simp [string_data_append, string_data_empty, List.append_assoc]
  repeat
    first
    | exact isInfixChars_of_prefixChars _ _ (isPrefixChars_append _ _)
    | apply isInfixChars_cons_of
    | apply isInfixChars_append_of

theorem nsdNameServer_contains_origin (o : String) :
    strContains (renderImpl .nsdNameServer [("fqdn", o)]) o = true := by
  unfold strContains renderImpl renderParam Template.sourceName String.join
  simp [string_data_append, string_data_empty, List.append_assoc]
  repeat
    first
    | exact isInfixChars_of_prefixChars _ _ (isPrefixChars_append _ _)
    | apply isInfixChars_cons_of
    | apply isInfixChars_append_of

end DnsTest

namespace DnsTest

/-- Claim C8: the tag of a `Config` determines a unique `Role`:
`Config.NameServer` maps to `Role.NameServer` and `Config.Resolver`
maps to `Role.Resolver`, for every payload. -/
theorem config_role_determined (o : FQDN) (d : Bool) (m : String) :
    (Config.NameServer o).role = Role.NameServer ∧
    (Config.Resolver d m).role = Role.Resolver :=
  ⟨rfl, rfl⟩

/-- Claim C9: `Implementation::default()` is `Unbound`, and `Display`
renders each variant as its lowercase name: `"bind"`, `"hickory"`,
`"unbound"` (for every repository payload of `Hickory`). -/
theorem default_display_spec (repo : Repository) :
    Implementation.default = Implementation.Unbound ∧
    Implementation.display .Bind = "bind" ∧
    Implementation.display (.Hickory repo) = "hickory" ∧
    Implementation.display .Unbound = "unbound" :=
  ⟨rfl, rfl, rfl, rfl⟩

/-- Claim C3: `conf_file_path` is total — every `(Implementation, Role)`
pair gets a defined path with no failure branch — and returns exactly the
literal paths of the §4.1 table. -/
theorem conf_file_path_table (repo : Repository) (role : Role) :
    Implementation.conf_file_path .Bind role = "/etc/bind/named.conf" ∧
    Implementation.conf_file_path (.Hickory repo) role = "/etc/named.toml" ∧
    Implementation.conf_file_path .Unbound .NameServer = "/etc/nsd/nsd.conf" ∧
    Implementation.conf_file_path .Unbound .Resolver = "/etc/unbound/unbound.conf" := by
  refine ⟨?_, ?_, rfl, rfl⟩ <;> cases role <;> rfl

/-- Claim C4: for every supported `(Implementation, Role)` pair,
`cmd_args` returns exactly the literal argument sequence of the §4.1
table: `named -g -d5` for Bind in either role, `hickory-dns -d` for
Hickory as resolver, `nsd -d` and `unbound -d` for Unbound. -/
theorem cmd_args_table (repo : Repository) (role : Role) :
    Implementation.cmd_args .Bind role = .ok ["named", "-g", "-d5"] ∧
    Implementation.cmd_args (.Hickory repo) .Resolver = .ok ["hickory-dns", "-d"] ∧
    Implementation.cmd_args .Unbound .NameServer = .ok ["nsd", "-d"] ∧
    Implementation.cmd_args .Unbound .Resolver = .ok ["unbound", "-d"] := by
  refine ⟨?_, rfl, rfl, rfl⟩
  cases role <;> rfl

/-- Claim C5: `cmd_args` for Hickory in the `NameServer` role fails fast
with the descriptive assertion message (which names the unsupported
combination) and never returns any argument list. -/
theorem cmd_args_hickory_name_server_fails (repo : Repository) :
    Implementation.cmd_args (.Hickory repo) .NameServer =
      .error "hickory acting in `NameServer` role is currently not supported" ∧
    strContains "hickory acting in `NameServer` role is currently not supported"
      "not supported" = true ∧
    ∀ args, Implementation.cmd_args (.Hickory repo) .NameServer ≠ .ok args := by
  refine ⟨rfl, by decide, fun args h => ?_⟩
  simp [Implementation.cmd_args, Role.is_resolver] at h

/-- Claim C6: `pidfile` returns exactly the literal paths of the §4.1
table for Bind and Unbound, and for Hickory in either role fails fast
with the "not implemented" signal instead of returning any path. -/
theorem pidfile_spec (repo : Repository) (role : Role) :
    Implementation.pidfile .Bind role = .ok "/tmp/named.pid" ∧
    Implementation.pidfile .Unbound .NameServer = .ok "/tmp/nsd.pid" ∧
    Implementation.pidfile .Unbound .Resolver = .ok "/tmp/unbound.pid" ∧
    Implementation.pidfile (.Hickory repo) role = .error "not implemented" ∧
    ∀ p, Implementation.pidfile (.Hickory repo) role ≠ .ok p := by
  refine ⟨?_, rfl, rfl, ?_, fun p h => ?_⟩
  · cases role <;> rfl
  · cases role <;> rfl
  · cases role <;> simp [Implementation.pidfile] at h

/-- Claim C10: the Hickory resolver configuration does not depend on the
netmask parameter — for every rendering collaborator, every DNSSEC flag
and every two netmask strings, `format_config` returns identical results,
because the source never passes `netmask` to the Hickory template. -/
theorem format_config_hickory_netmask_independent
    (render : Template → List (String × String) → String)
    (repo : Repository) (d : Bool) (m1 m2 : String) :
    Implementation.format_config render (.Hickory repo) (.Resolver d m1) =
      Implementation.format_config render (.Hickory repo) (.Resolver d m2) :=
  rfl

/-- Claim C2: `format_config` on a `NameServer` config embeds the origin
string verbatim for Bind and Unbound, and fails (the `unimplemented!()`
panic, embedded as an error) for Hickory. -/
theorem format_config_name_server_spec (o : FQDN) (repo : Repository) :
    (∃ s, Implementation.format_config renderImpl .Bind (.NameServer o) = .ok s ∧
      strContains s o.as_str = true) ∧
    (∃ s, Implementation.format_config renderImpl .Unbound (.NameServer o) = .ok s ∧
      strContains s o.as_str = true) ∧
    Implementation.format_config renderImpl (.Hickory repo) (.NameServer o) =
      .error "not implemented" :=
  ⟨⟨_, rfl, bindNameServer_contains_origin o.as_str⟩,
   ⟨_, rfl, nsdNameServer_contains_origin o.as_str⟩,
   rfl⟩

/-- Claim C1 (amended): `format_config` on a `Resolver` config renders the
implementation's resolver template; for Bind and Unbound the result
contains both the rendered DNSSEC flag and the netmask, while for Hickory
it contains the rendered DNSSEC flag only, the netmask not being passed to
its template; rendering is deterministic (same inputs, byte-identical
output). -/
theorem format_config_resolver_renders (d : Bool) (m : String) (repo : Repository) :
    (∃ s, Implementation.format_config renderImpl .Bind (.Resolver d m) = .ok s ∧
      strContains s (toString d) = true ∧ strContains s m = true) ∧
    (∃ s, Implementation.format_config renderImpl .Unbound (.Resolver d m) = .ok s ∧
      strContains s (toString d) = true ∧ strContains s m = true) ∧
    (∃ s, Implementation.format_config renderImpl (.Hickory repo) (.Resolver d m) = .ok s ∧
      strContains s (toString d) = true) ∧
    (∀ i : Implementation, Implementation.format_config renderImpl i (.Resolver d m) =
      Implementation.format_config renderImpl i (.Resolver d m)) :=
  ⟨⟨_, rfl, bindResolver_contains_flag d m, bindResolver_contains_netmask d m⟩,
   ⟨_, rfl, unboundResolver_contains_flag d m, unboundResolver_contains_netmask d m⟩,
   ⟨_, rfl, hickoryResolver_contains_flag d⟩,
   fun _ => rfl⟩

/-- Claim C1, counterexample: for the Hickory implementation the rendered
resolver configuration does not contain the netmask, refuting the claim
that all three implementations substitute the netmask into their
template. -/
theorem format_config_hickory_no_netmask :
    Implementation.format_config renderImpl
      (.Hickory ⟨"https://example.com/repo.git"⟩) (.Resolver true "0.0.0.0/0") =
      .ok "templates/hickory.resolver.toml.jinja:[use_dnssec=true]" ∧
    strContains "templates/hickory.resolver.toml.jinja:[use_dnssec=true]"
      "0.0.0.0/0" = false := by
  constructor
  · rfl
  · decide

/-- Claim C7: the `Repository` constructor succeeds exactly when the
path-existence or URL-parse check passes, returning a value whose
`as_str` round-trips the input unchanged; otherwise it fails with a
message naming the offending input and never returns a value. -/
theorem mkRepository_spec (pathExists urlParseOk : String → Bool) (input : String) :
    ((pathExists input || urlParseOk input) = true →
      ∃ r, mkRepository pathExists urlParseOk input = .ok r ∧ r.as_str = input) ∧
    ((pathExists input || urlParseOk input) = false →
      mkRepository pathExists urlParseOk input =
        .error (input ++ " is not a valid repository") ∧
      strContains (input ++ " is not a valid repository") input = true ∧
      ∀ r, mkRepository pathExists urlParseOk input ≠ .ok r) := by
  constructor
  · intro h
    exact ⟨⟨input⟩, by simp [mkRepository, h], rfl⟩
  · intro h
    refine ⟨by simp [mkRepository, h], strContains_append_left input _, fun r hr => ?_⟩
    simp [mkRepository, h] at hr

/-- Claim C7, witness: a URL-accepted input is constructed and
round-trips, and an input rejected by both checks fails with the message
naming it. -/
theorem mkRepository_spec_witness :
    (∃ r, mkRepository (fun _ => false) (fun s => s == "https://example.com/repo.git")
      "https://example.com/repo.git" = .ok r ∧ r.as_str = "https://example.com/repo.git") ∧
    (mkRepository (fun _ => false) (fun _ => false) "not a url" =
      .error ("not a url" ++ " is not a valid repository") ∧
     strContains ("not a url" ++ " is not a valid repository") "not a url" = true ∧
     ∀ r, mkRepository (fun _ => false) (fun _ => false) "not a url" ≠ .ok r) :=
  ⟨(mkRepository_spec (fun _ => false) (fun s => s == "https://example.com/repo.git")
      "https://example.com/repo.git").1 (by decide),
   (mkRepository_spec (fun _ => false) (fun _ => false) "not a url").2 (by decide)⟩

end DnsTest

namespace DnsTest

/-- Claim C5, witness: at a concrete repository payload, `cmd_args` for
Hickory as name server returns the assertion-message error and is not the
`nsd` argument list. -/
theorem cmd_args_hickory_name_server_fails_witness :
    Implementation.cmd_args (.Hickory ⟨"https://example.com/a.git"⟩) .NameServer =
      .error "hickory acting in `NameServer` role is currently not supported" ∧
    Implementation.cmd_args (.Hickory ⟨"https://example.com/a.git"⟩) .NameServer ≠
      .ok ["nsd", "-d"] :=
  ⟨(cmd_args_hickory_name_server_fails ⟨"https://example.com/a.git"⟩).1,
   (cmd_args_hickory_name_server_fails ⟨"https://example.com/a.git"⟩).2.2 ["nsd", "-d"]⟩

/-- Claim C6, witness: at a concrete repository payload and role,
`pidfile` for Hickory returns the "not implemented" error and is not the
`unbound` pidfile path. -/
theorem pidfile_spec_witness :
    Implementation.pidfile (.Hickory ⟨"https://example.com/b.git"⟩) .Resolver =
      .error "not implemented" ∧
    Implementation.pidfile (.Hickory ⟨"https://example.com/b.git"⟩) .Resolver ≠
      .ok "/tmp/unbound.pid" :=
  ⟨(pidfile_spec ⟨"https://example.com/b.git"⟩ .Resolver).2.2.2.1,
   (pidfile_spec ⟨"https://example.com/b.git"⟩ .Resolver).2.2.2.2 "/tmp/unbound.pid"⟩

end DnsTest
